import Mathlib

/-
Verification of the royal-selfbot entity-cache / patch model and the
voice-signaling bridge, as a shallow embedding in Lean 4.

Conventions of the embedding:

JavaScript raw payload fields that may be absent are modelled as Option;
fields where the code distinguishes an explicit null from an absent field
(for example the channel_id of a voice-state update, tested with a strict
comparison against null) are modelled as Option (Option _): none is an
absent field, some none is an explicit null, some (some v) is a value.

A JavaScript truthiness test on a string field (such as the check
!data.guild_id guarding the voice dispatch routines) is modelled as the
disjunction of absence and the empty string, exactly mirroring the falsy
values a string-typed field can take.

JavaScript Map objects keyed by id are modelled as association lists with
the insertion-order preserving set and erase operations below. Object
identity (the fact that an entity cache returns the same mutable object
across updates) is modelled with an arena: a heap list of entities plus a
table from ids to heap indices; two calls return the same instance exactly
when they return the same heap index.
-/

set_option autoImplicit false

universe u v

/-- Lookup in an association list, first match wins, mirroring Map.get. -/
def alistGet {κ : Type u} {α : Type v} [DecidableEq κ] : List (κ × α) → κ → Option α
  | [], _ => none
  | (k, v) :: xs, q => if k = q then some v else alistGet xs q

/-- Overwrite-or-append for an association list, mirroring Map.set. -/
def alistSet {κ : Type u} {α : Type v} [DecidableEq κ] : List (κ × α) → κ → α → List (κ × α)
  | [], q, v => [(q, v)]
  | (k, w) :: xs, q, v => if k = q then (q, v) :: xs else (k, w) :: alistSet xs q v

/-- Removal of a key from an association list, mirroring Map.delete. -/
def alistErase {κ : Type u} {α : Type v} [DecidableEq κ] : List (κ × α) → κ → List (κ × α)
  | [], _ => []
  | (k, w) :: xs, q => if k = q then alistErase xs q else (k, w) :: alistErase xs q

/-- Positional lookup in a heap list. -/
def getAt {α : Type u} : List α → Nat → Option α
  | [], _ => none
  | x :: _, 0 => some x
  | _ :: xs, n + 1 => getAt xs n

/-- Positional overwrite in a heap list; out of range is the identity. -/
def setAt {α : Type u} : List α → Nat → α → List α
  | [], _, _ => []
  | _ :: xs, 0, v => v :: xs
  | x :: xs, n + 1, v => x :: setAt xs n v

/-- The merge used by every guarded field update of the form
if (data.f !== undefined) this.f = data.f. -/
def mergeOpt {α : Type u} (x : Option α) (old : Option α) : Option α :=
  match x with
  | some v => some v
  | none => old

/-- The merge used by every field update of the form
this.f = data.f ?? this.f: both null and undefined keep the old value. -/
def nullMerge {α : Type u} (x : Option (Option α)) (old : Option α) : Option α :=
  match x with
  | some (some v) => some v
  | _ => old

/-- The merge used by the update this.f = data.f ? g data.f : this.f on a
string field: only a truthy (present, non-null, nonempty) string replaces. -/
def truthyMerge (x : Option (Option String)) (old : Option String) : Option String :=
  match x with
  | some (some s) => if s = "" then old else some s
  | _ => old

/-- Raw user payload, the fields read by User._patch in
src/structures/User.js. -/
structure UserData where
  id : String
  username : Option String
  discriminator : Option String
  avatar : Option (Option String)
  bot : Option Bool
  system : Option Bool
deriving DecidableEq

/-- The User entity of src/structures/User.js. A field is none until some
payload has carried it; avatar additionally distinguishes an explicit
null hash. -/
structure User where
  id : String
  username : Option String
  discriminator : Option String
  avatar : Option (Option String)
  bot : Option Bool
  system : Option Bool
deriving DecidableEq

/-- User._patch from src/structures/User.js lines 31 to 79: every field is
guarded by a data.f !== undefined check and otherwise left alone. -/
def User.patch (u : User) (d : UserData) : User :=
  { u with
    username := mergeOpt d.username u.username
    discriminator := mergeOpt d.discriminator u.discriminator
    avatar := mergeOpt d.avatar u.avatar
    bot := mergeOpt d.bot u.bot
    system := mergeOpt d.system u.system }

/-- The User constructor: store the id, then apply the initial patch. -/
def User.new (d : UserData) : User :=
  User.patch
    { id := d.id, username := none, discriminator := none, avatar := none,
      bot := none, system := none } d

/-- The tag getter of src/structures/User.js lines 87 to 93: null unless
username is a string; username#discriminator when the discriminator is
truthy and not the string 0; bare username otherwise. -/
def User.tag (u : User) : Option String :=
  match u.username with
  | none => none
  | some name =>
    match u.discriminator with
    | some d => if d ≠ "" ∧ d ≠ "0" then some (name ++ "#" ++ d) else some name
    | none => some name

/-- The user cache: a heap of User instances plus the id-to-instance table.
Equal heap indices model the same JavaScript object instance. -/
structure UserStore where
  heap : List User
  table : List (String × Nat)
deriving DecidableEq

/-- The empty user cache. -/
def UserStore.empty : UserStore := { heap := [], table := [] }

/-- Modelled from the spec: BaseManager._add, the create-or-merge upsert
that src/managers/UserManager.js _add delegates to, is not among the
source files; section 4.1 of the spec specifies it: if an entity with the
same id exists, invoke its merge operation with the raw data and return
the same instance; otherwise construct a new entity and insert it. -/
def UserStore.upsert (s : UserStore) (d : UserData) : Nat × UserStore :=
  match alistGet s.table d.id with
  | some r =>
    match getAt s.heap r with
    | some u => (r, { s with heap := setAt s.heap r (User.patch u d) })
    | none => (r, s)
  | none =>
    (s.heap.length,
      { heap := s.heap ++ [User.new d],
        table := s.table ++ [(d.id, s.heap.length)] })

/-- Modelled from the spec: the cache flag of BaseManager._add; with the
flag cleared the result is constructed but not stored (spec section 4.1),
with the flag set the call is the usual upsert. -/
def UserStore.addWith (s : UserStore) (d : UserData) (cache : Bool) : Nat × UserStore :=
  if cache then UserStore.upsert s d
  else (s.heap.length, { s with heap := s.heap ++ [User.new d] })

/-- Well-formedness of a user cache: every table entry points into the heap. -/
def UserStoreWF (s : UserStore) : Prop :=
  ∀ k r, alistGet s.table k = some r → r < s.heap.length

theorem getAt_isSome_iff {α : Type u} (l : List α) (i : Nat) :
    (getAt l i).isSome = true ↔ i < l.length := by
  induction l generalizing i with
  | nil => simp [getAt]
  | cons x xs ih =>
    cases i with
    | zero => simp [getAt]
    | succ n => simpa [getAt, Nat.succ_lt_succ_iff] using ih n

theorem getAt_setAt_self {α : Type u} (l : List α) (i : Nat) (v : α) (h : i < l.length) :
    getAt (setAt l i v) i = some v := by
  induction l generalizing i with
  | nil => simp at h
  | cons x xs ih =>
    cases i with
    | zero => simp [setAt, getAt]
    | succ n =>
      simp only [List.length_cons, Nat.succ_lt_succ_iff] at h
      simpa [setAt, getAt] using ih n h

theorem length_setAt {α : Type u} (l : List α) (i : Nat) (v : α) :
    (setAt l i v).length = l.length := by
  induction l generalizing i with
  | nil => simp [setAt]
  | cons x xs ih =>
    cases i with
    | zero => simp [setAt]
    | succ n => simpa [setAt] using ih n

theorem getAt_append_length {α : Type u} (l : List α) (v : α) :
    getAt (l ++ [v]) l.length = some v := by
  induction l with
  | nil => simp [getAt]
  | cons x xs ih => simpa [getAt] using ih

theorem alistGet_append_single {κ : Type u} {α : Type v} [DecidableEq κ]
    (l : List (κ × α)) (k : κ) (v : α) (h : alistGet l k = none) :
    alistGet (l ++ [(k, v)]) k = some v := by
  induction l with
  | nil => simp [alistGet]
  | cons p xs ih =>
    by_cases hk : p.1 = k
    · simp [alistGet, hk] at h
    · simp only [alistGet, hk, if_neg] at h
      simpa [alistGet, hk] using ih h

theorem alistGet_alistErase_self {κ : Type u} {α : Type v} [DecidableEq κ]
    (l : List (κ × α)) (k : κ) :
    alistGet (alistErase l k) k = none := by
  induction l with
  | nil => simp [alistGet, alistErase]
  | cons p xs ih =>
    by_cases hk : p.1 = k
    · simpa [alistErase, hk] using ih
    · simpa [alistErase, alistGet, hk] using ih

/-- Raw channel payload, the fields read by Channel._patch in
src/structures/Channel.js; name uses a nullish merge, type an undefined
guard. -/
structure ChannelData where
  id : String
  guild_id : Option String
  type : Option Int
  name : Option (Option String)
deriving DecidableEq

/-- The fixed CHANNEL_TYPES enumeration of src/structures/Channel.js. -/
def CHANNEL_TYPES : List (String × Int) :=
  [("GUILD_TEXT", 0), ("DM", 1), ("GUILD_VOICE", 2), ("GROUP_DM", 3),
   ("GUILD_CATEGORY", 4), ("GUILD_NEWS", 5), ("GUILD_STORE", 6),
   ("GUILD_NEWS_THREAD", 10), ("GUILD_PUBLIC_THREAD", 11),
   ("GUILD_PRIVATE_THREAD", 12), ("GUILD_STAGE_VOICE", 13),
   ("GUILD_DIRECTORY", 14), ("GUILD_FORUM", 15)]

/-- The reverse lookup of the numeric type code performed on every channel
patch; UNKNOWN when no enumeration entry matches. -/
def channelTypeName (t : Option Int) : String :=
  match CHANNEL_TYPES.find? (fun p => t = some p.2) with
  | some p => p.1
  | none => "UNKNOWN"

/-- The Channel entity of src/structures/Channel.js; the guild back
reference is modelled by the id it is resolved from. -/
structure Channel where
  id : String
  guildId : Option String
  type : Option Int
  name : Option String
  typeName : String
deriving DecidableEq

/-- Channel._patch from src/structures/Channel.js: the type keeps its old
value when the payload omits it, the name uses a nullish merge, and the
friendly type name is recomputed on every patch. -/
def Channel.patch (c : Channel) (d : ChannelData) : Channel :=
  let t := mergeOpt d.type c.type
  { c with
    type := t
    name := nullMerge d.name c.name
    typeName := channelTypeName t }

/-- The Channel constructor: store the id and the guild reference, then
apply the initial patch. -/
def Channel.new (d : ChannelData) : Channel :=
  Channel.patch
    { id := d.id, guildId := d.guild_id, type := none, name := none,
      typeName := channelTypeName none } d

/-- Modelled from the spec: ChannelManager._add delegates to the absent
BaseManager._add create-or-merge upsert of spec section 4.1; instance
identity is not needed for the claims about guilds, so the channel cache
is the plain id-keyed collection. -/
def channelAdd (s : List (String × Channel)) (d : ChannelData) : List (String × Channel) :=
  match alistGet s d.id with
  | some c => alistSet s d.id (Channel.patch c d)
  | none => alistSet s d.id (Channel.new d)

/-- Raw voice-state payload, the fields read by VoiceState._patch and by
Guild._updateVoiceState; channel_id and session_id distinguish an
explicit null from an absent field. -/
structure VSData where
  guild_id : Option String
  user_id : Option String
  session_id : Option (Option String)
  channel_id : Option (Option String)
  deaf : Option Bool
  mute : Option Bool
  self_deaf : Option Bool
  self_mute : Option Bool
  self_video : Option Bool
  self_stream : Option Bool
  suppress : Option Bool
  request_to_speak_timestamp : Option (Option String)
deriving DecidableEq

/-- The VoiceState entity of src/structures/VoiceState.js. The guild back
reference is modelled by the id it is resolved from; the request-to-speak
timestamp keeps the raw string the Date is parsed from. -/
structure VoiceState where
  guildId : Option String
  userId : Option String
  sessionId : Option String
  channelId : Option String
  serverDeaf : Bool
  serverMute : Bool
  selfDeaf : Bool
  selfMute : Bool
  selfVideo : Bool
  selfStream : Bool
  suppress : Bool
  requestToSpeakTimestamp : Option String
deriving DecidableEq

/-- VoiceState._patch from src/structures/VoiceState.js lines 37 to 110:
every field merges with the nullish pattern data.f ?? this.f (the boolean
flags further default to false, which the constructor already
establishes), and the request-to-speak timestamp only replaces on a
truthy payload string. -/
def VoiceState.patch (vs : VoiceState) (d : VSData) : VoiceState :=
  { vs with
    sessionId := nullMerge d.session_id vs.sessionId
    channelId := nullMerge d.channel_id vs.channelId
    serverDeaf := Option.getD d.deaf vs.serverDeaf
    serverMute := Option.getD d.mute vs.serverMute
    selfDeaf := Option.getD d.self_deaf vs.selfDeaf
    selfMute := Option.getD d.self_mute vs.selfMute
    selfVideo := Option.getD d.self_video vs.selfVideo
    selfStream := Option.getD d.self_stream vs.selfStream
    suppress := Option.getD d.suppress vs.suppress
    requestToSpeakTimestamp :=
      truthyMerge d.request_to_speak_timestamp vs.requestToSpeakTimestamp }

/-- The VoiceState constructor: record the guild and user references, then
apply the initial patch over the all-false, all-unset base. -/
def VoiceState.new (d : VSData) : VoiceState :=
  VoiceState.patch
    { guildId := d.guild_id, userId := d.user_id, sessionId := none,
      channelId := none, serverDeaf := false, serverMute := false,
      selfDeaf := false, selfMute := false, selfVideo := false,
      selfStream := false, suppress := false,
      requestToSpeakTimestamp := none } d

/-- Raw guild payload, the fields read by the Guild constructor and
Guild._patch in src/structures/Guild.js. -/
structure GuildData where
  id : String
  unavailable : Option Bool
  name : Option String
  icon : Option String
  owner_id : Option String
  member_count : Option Int
  splash : Option String
  banner : Option String
  description : Option String
  channels : Option (List ChannelData)
  threads : Option (List ChannelData)
  voice_states : Option (List VSData)
deriving DecidableEq

/-- The Guild aggregate of src/structures/Guild.js: scalar fields, the
channel collection, and the voice-state collection keyed by user id (the
key type mirrors the possibly absent user_id of the stored state). -/
structure Guild where
  id : String
  unavailable : Bool
  name : Option String
  icon : Option String
  ownerId : Option String
  memberCount : Option Int
  splash : Option String
  banner : Option String
  description : Option String
  channels : List (String × Channel)
  voiceStates : List (Option String × VoiceState)
deriving DecidableEq

/-- The guard !channelData.guild_id of Guild._patch: a channel payload with
a falsy guild id receives the id of the owning guild. -/
def ensureGuildId (d : ChannelData) (gid : String) : ChannelData :=
  match d.guild_id with
  | none => { d with guild_id := some gid }
  | some g => if g = "" then { d with guild_id := some gid } else d

/-- The field-merge part of Guild._patch (src/structures/Guild.js lines 88
to 145), reached only while the guild is available: guarded scalar
merges, channel and thread upserts, and the authoritative clear-then-
rebuild of the voice-state collection. -/
def Guild.patchFields (g : Guild) (d : GuildData) : Guild :=
  let g := { g with
    name := mergeOpt d.name g.name
    icon := mergeOpt d.icon g.icon
    ownerId := mergeOpt d.owner_id g.ownerId
    memberCount := mergeOpt d.member_count g.memberCount
    splash := mergeOpt d.splash g.splash
    banner := mergeOpt d.banner g.banner
    description := mergeOpt d.description g.description }
  let g := match d.channels with
    | some cds =>
      { g with channels :=
          cds.foldl (fun acc cd => channelAdd acc (ensureGuildId cd g.id)) g.channels }
    | none => g
  let g := match d.threads with
    | some cds =>
      { g with channels :=
          cds.foldl (fun acc cd => channelAdd acc (ensureGuildId cd g.id)) g.channels }
    | none => g
  let g := match d.voice_states with
    | some vss =>
      { g with voiceStates :=
          vss.foldl (fun acc vd =>
            let vs := VoiceState.new { vd with guild_id := some g.id }
            alistSet acc vs.userId vs) [] }
    | none => g
  g

/-- Guild._patch from src/structures/Guild.js lines 72 to 146: an explicit
availability flip is applied first; whenever the guild is (still or
newly) unavailable the patch stops before any field merge. -/
def Guild.patch (g : Guild) (d : GuildData) : Guild :=
  let g1 :=
    match d.unavailable with
    | some u => if u ≠ g.unavailable then { g with unavailable := u } else g
    | none => g
  if g1.unavailable then g1 else Guild.patchFields g1 d

/-- The Guild constructor: empty collections, the unavailable flag from
data.unavailable ?? false, and an initial patch only when available. -/
def Guild.new (d : GuildData) : Guild :=
  let g0 : Guild :=
    { id := d.id, unavailable := Option.getD d.unavailable false,
      name := none, icon := none, ownerId := none, memberCount := none,
      splash := none, banner := none, description := none,
      channels := [], voiceStates := [] }
  if g0.unavailable then g0 else Guild.patch g0 d

/-- Guild._updateVoiceState from src/structures/Guild.js lines 154 to 178:
drop the event when the user id is falsy or the guild id differs; an
explicit null channel_id removes the entry outright; otherwise merge in
place or insert a freshly constructed state. -/
def Guild.updateVoiceState (g : Guild) (d : VSData) : Guild :=
  match d.user_id with
  | none => g
  | some uid =>
    if uid = "" then g
    else if d.guild_id ≠ some g.id then g
    else
      match d.channel_id with
      | some none =>
        match alistGet g.voiceStates (some uid) with
        | some _ => { g with voiceStates := alistErase g.voiceStates (some uid) }
        | none => g
      | _ =>
        match alistGet g.voiceStates (some uid) with
        | some vs =>
          { g with voiceStates := alistSet g.voiceStates (some uid) (VoiceState.patch vs d) }
        | none =>
          let vs := VoiceState.new { d with guild_id := some g.id }
          { g with voiceStates := alistSet g.voiceStates vs.userId vs }

/-- Character-list prefix test modelling String.prototype.startsWith. -/
def startsWithBot (t : String) : Bool :=
  List.isPrefixOf ("Bot ").data t.data

/-- The gate of VoiceManager.createVoiceDispatch (src/voice/VoiceManager.js
line 67): true exactly when !client.token || !client.token.startsWith with
the Bot prefix, that is for a missing, empty, or non-bot token. -/
def isUserTokenGate (token : Option String) : Bool :=
  match token with
  | none => true
  | some t => t == "" || !(startsWithBot t)

/-- The handler pair supplied by the external voice transport; the two
callbacks are modelled by opaque identifiers, so that which callback an
inbound dispatch invokes is observable. -/
structure AdapterMethods where
  onStateId : Nat
  onServerId : Nat
deriving DecidableEq

/-- The outbound payload shape of the voice-state-update signaling opcode:
guild_id, channel_id (null allowed), self_mute, self_deaf (null allowed). -/
structure VoicePayload where
  guild_id : Option String
  channel_id : Option String
  self_mute : Option Bool
  self_deaf : Option Bool
deriving DecidableEq

/-- The signaling envelope handed to the connection send primitive. -/
structure Envelope where
  op : Nat
  d : VoicePayload
deriving DecidableEq

/-- The adapter interface returned to the external voice transport. The
send component takes the readiness of the underlying connection and the
payload, and yields the boolean result together with the envelope passed
to the connection send primitive (none when nothing was transmitted); the
destroy component is the transformation it applies to the adapters
table. -/
structure VoiceAdapter where
  send : Bool → VoicePayload → Bool × Option Envelope
  destroy : List (String × AdapterMethods) → List (String × AdapterMethods)

/-- The adapter factory handed to the external voice transport: invoking it
with a handler pair transforms the adapters table and yields the adapter. -/
structure VoiceFactory where
  invoke : AdapterMethods → List (String × AdapterMethods) →
    List (String × AdapterMethods) × VoiceAdapter

/-- VoiceManager.createVoiceDispatch from src/voice/VoiceManager.js lines
65 to 129. On the gated (user token) path the factory ignores the handler
pair, its send always answers false without transmitting, and destroy is
the identity. On the bot path the factory stores the handlers under the
guild id, send clones the payload, nulls its self_mute and self_deaf,
wraps it in the opcode-4 envelope and answers true when the connection is
open and false (without transmitting or throwing) otherwise, and destroy
removes the guild entry. -/
def VoiceManager.createVoiceDispatch (token : Option String) (guildId : String) :
    VoiceFactory :=
  if isUserTokenGate token then
    { invoke := fun _ tbl =>
        (tbl,
          { send := fun _ _ => (false, none)
            destroy := fun t => t }) }
  else
    { invoke := fun m tbl =>
        (alistSet tbl guildId m,
          { send := fun wsOpen p =>
              if wsOpen then
                (true, some { op := 4, d := { p with self_mute := none, self_deaf := none } })
              else (false, none)
            destroy := fun t => alistErase t guildId }) }

/-- VoiceManager.onVoiceStateUpdate from src/voice/VoiceManager.js lines
138 to 144: nothing on a falsy guild id; otherwise the registered handler
pair of exactly that guild receives the raw event data. The result names
the invoked callback and the data it received, none when the event was
dropped. -/
def VoiceManager.onVoiceStateUpdate (adapters : List (String × AdapterMethods))
    (d : VSData) : Option (Nat × VSData) :=
  match d.guild_id with
  | none => none
  | some gid =>
    if gid = "" then none
    else
      match alistGet adapters gid with
      | some m => some (m.onStateId, d)
      | none => none

/-- Raw voice-server-update payload routed by the bridge. -/
structure VoiceServerData where
  guild_id : Option String
  token : Option String
  endpoint : Option (Option String)
deriving DecidableEq

/-- VoiceManager.onVoiceServerUpdate from src/voice/VoiceManager.js lines
153 to 159, the exact analogue for the server-update event kind. -/
def VoiceManager.onVoiceServerUpdate (adapters : List (String × AdapterMethods))
    (d : VoiceServerData) : Option (Nat × VoiceServerData) :=
  match d.guild_id with
  | none => none
  | some gid =>
    if gid = "" then none
    else
      match alistGet adapters gid with
      | some m => some (m.onServerId, d)
      | none => none

/-- The fixed Discord epoch offset in milliseconds. -/
def DISCORD_EPOCH : Nat := 1420070400000

/-- Decimal parsing of a snowflake string, modelling the BigInt conversion
applied to it: all-digit strings (including the empty string, which
BigInt maps to zero) parse, anything else signals failure. Signs, blanks
and non-decimal prefixes never occur in snowflakes and are out of scope. -/
def parseBigIntDec (s : String) : Option Nat :=
  if s.data.all Char.isDigit then
    some (s.data.foldl (fun acc c => acc * 10 + (c.toNat - 48)) 0)
  else none

/-- Util.getTimestampFromSnowflake from src/util/Util.js lines 20 to 29:
shift the snowflake right 22 bits and add the epoch offset; the catch arm
answers zero when the conversion fails. -/
def Util.getTimestampFromSnowflake (s : String) : Nat :=
  match parseBigIntDec s with
  | some n => n >>> 22 + DISCORD_EPOCH
  | none => 0

/-- The createdTimestamp derived from User.createdAt (src/structures/User.js
lines 101 to 107): the same shift-and-add arithmetic on the id; none
models the exception a non-numeric id raises in the getter. -/
def User.createdTimestamp (u : User) : Option Nat :=
  (parseBigIntDec u.id).map (fun n => n >>> 22 + DISCORD_EPOCH)

/-- The outcome of the remote read issued by a fetch: the resolved raw
payload, or rejection carrying the optional HTTP status of the error
response. -/
inductive RemoteOutcome (α : Type u) where
  | success (data : α)
  | failure (status : Option Nat)
deriving DecidableEq

/-- UserManager.fetch from src/managers/UserManager.js lines 71 to 89:
answer the cached instance unless force; on success add the payload; on a
404-equivalent rejection evict the id (when caching) and answer null; on
any other rejection propagate the error. The error branch carries the
status; the store is untouched by a propagated error. -/
def UserManager.fetch (s : UserStore) (id : String) (cache force : Bool)
    (remote : RemoteOutcome UserData) : Except (Option Nat) (Option Nat × UserStore) :=
  match (if force then none else alistGet s.table id) with
  | some r => Except.ok (some r, s)
  | none =>
    match remote with
    | RemoteOutcome.success d =>
      let p := UserStore.addWith s d cache
      Except.ok (some p.1, p.2)
    | RemoteOutcome.failure st =>
      if st = some 404 then
        Except.ok (none, if cache then { s with table := alistErase s.table id } else s)
      else Except.error st

/-- Modelled from the spec: GuildManager._add delegates to the absent
BaseManager._add; as for channels, instance identity is not needed here,
so the guild cache is the plain id-keyed collection with the section 4.1
create-or-merge upsert and the construct-without-storing cache flag. -/
def guildAdd (s : List (String × Guild)) (d : GuildData) (cache : Bool) :
    Guild × List (String × Guild) :=
  if cache then
    match alistGet s d.id with
    | some g =>
      let g2 := Guild.patch g d
      (g2, alistSet s d.id g2)
    | none =>
      let g2 := Guild.new d
      (g2, alistSet s d.id g2)
  else (Guild.new d, s)

/-- GuildManager.fetch from src/managers/UserManager.js lines 176 to 193
(the GuildManager part of that source file): answer the cached instance
unless force; on success add the payload; every rejection, the
404-equivalent included, is rethrown unchanged with the cache untouched. -/
def GuildManager.fetch (s : List (String × Guild)) (id : String) (cache force : Bool)
    (remote : RemoteOutcome GuildData) :
    Except (Option Nat) (Option Guild × List (String × Guild)) :=
  match (if force then none else alistGet s id) with
  | some g => Except.ok (some g, s)
  | none =>
    match remote with
    | RemoteOutcome.success d =>
      let p := guildAdd s d cache
      Except.ok (some p.1, p.2)
    | RemoteOutcome.failure st => Except.error st

/-- A nullish merge keeps a present value present. -/
theorem nullMerge_isSome {α : Type u} (x : Option (Option α)) (old : Option α)
    (h : old.isSome = true) : (nullMerge x old).isSome = true := by
  match x with
  | none => exact h
  | some none => exact h
  | some (some v) => rfl

/-- C2: while a guild is unavailable, any fold of merge calls whose
payloads never explicitly set the flag to false leaves the whole guild
record, its channels and voice states included, unchanged; and the merge
of a payload setting the flag to true on an available guild flips only
the flag and ignores every other field of that payload. -/
theorem c2_unavailable_guild_idempotence :
    (∀ (g : Guild) (ds : List GuildData), g.unavailable = true →
      (∀ d ∈ ds, d.unavailable ≠ some false) →
      ds.foldl Guild.patch g = g) ∧
    (∀ (g : Guild) (d : GuildData), g.unavailable = false →
      d.unavailable = some true →
      Guild.patch g d = { g with unavailable := true }) := by
  constructor
  · intro g ds hg hds
    induction ds with
    | nil => rfl
    | cons d ds ih =>
      have hd : d.unavailable ≠ some false := hds d (by simp)
      have hstep : Guild.patch g d = g := by
        rcases hu : d.unavailable with _ | b
        · simp [Guild.patch, hu, hg]
        · cases b
          · exact absurd hu hd
          · simp [Guild.patch, hu, hg]
      rw [List.foldl_cons, hstep]
      exact ih (fun e he => hds e (by simp [he]))
  · intro g d hg hu
    simp [Guild.patch, hu, hg]

theorem c2_witness :
    ([{ id := "g1", unavailable := none, name := some ("x"), icon := none,
        owner_id := none, member_count := some 7, splash := none, banner := none,
        description := none, channels := none, threads := none,
        voice_states := none }] : List GuildData).foldl Guild.patch
      { id := "g1", unavailable := true, name := none, icon := none,
        ownerId := none, memberCount := none, splash := none, banner := none,
        description := none, channels := [], voiceStates := [] } =
      { id := "g1", unavailable := true, name := none, icon := none,
        ownerId := none, memberCount := none, splash := none, banner := none,
        description := none, channels := [], voiceStates := [] } ∧
    Guild.patch
      { id := "g1", unavailable := false, name := some ("old"), icon := none,
        ownerId := none, memberCount := none, splash := none, banner := none,
        description := none, channels := [], voiceStates := [] }
      { id := "g1", unavailable := some true, name := some ("ignored"), icon := none,
        owner_id := none, member_count := some 3, splash := none, banner := none,
        description := none, channels := none, threads := none, voice_states := none } =
      { id := "g1", unavailable := true, name := some ("old"), icon := none,
        ownerId := none, memberCount := none, splash := none, banner := none,
        description := none, channels := [], voiceStates := [] } :=
  ⟨c2_unavailable_guild_idempotence.1 _ _ rfl (by decide),
   c2_unavailable_guild_idempotence.2 _ _ rfl rfl⟩

/-- C3: a voice update event with a matching guild id, a present (truthy)
user id and an explicitly null channel id leaves no entry for that user
in the voice-state collection (lookup answers absent); an event lacking a
user id or carrying a different guild id leaves the guild unchanged. -/
theorem c3_voice_leave_removes :
    (∀ (g : Guild) (d : VSData) (uid : String),
      d.user_id = some uid → uid ≠ "" → d.guild_id = some g.id →
      d.channel_id = some none →
      alistGet (Guild.updateVoiceState g d).voiceStates (some uid) = none) ∧
    (∀ (g : Guild) (d : VSData),
      d.user_id = none ∨ d.guild_id ≠ some g.id →
      Guild.updateVoiceState g d = g) := by
  constructor
  · intro g d uid hu hne hg hc
    cases hl : alistGet g.voiceStates (some uid) with
    | some vs =>
      simp [Guild.updateVoiceState, hu, hne, hg, hc, hl, alistGet_alistErase_self]
    | none =>
      simp [Guild.updateVoiceState, hu, hne, hg, hc, hl]
  · intro g d h
    rcases h with h | h
    · simp [Guild.updateVoiceState, h]
    · cases hu : d.user_id with
      | none => simp [Guild.updateVoiceState, hu]
      | some uid =>
        by_cases he : uid = ""
        · simp [Guild.updateVoiceState, hu, he]
        · simp [Guild.updateVoiceState, hu, he, h]

theorem c3_witness :
    alistGet
      (Guild.updateVoiceState
        { id := "g1", unavailable := false, name := none, icon := none,
          ownerId := none, memberCount := none, splash := none, banner := none,
          description := none, channels := [],
          voiceStates := [(some ("u1"),
            VoiceState.new
              { guild_id := some ("g1"), user_id := some ("u1"),
                session_id := some (some ("sess")), channel_id := some (some ("c1")),
                deaf := none, mute := none, self_deaf := none, self_mute := none,
                self_video := none, self_stream := none, suppress := none,
                request_to_speak_timestamp := none })] }
        { guild_id := some ("g1"), user_id := some ("u1"), session_id := none,
          channel_id := some none, deaf := none, mute := none, self_deaf := none,
          self_mute := none, self_video := none, self_stream := none,
          suppress := none, request_to_speak_timestamp := none }).voiceStates
      (some ("u1")) = none ∧
    Guild.updateVoiceState
      { id := "g1", unavailable := false, name := none, icon := none,
        ownerId := none, memberCount := none, splash := none, banner := none,
        description := none, channels := [], voiceStates := [] }
      { guild_id := some ("g2"), user_id := some ("u1"), session_id := none,
        channel_id := some none, deaf := none, mute := none, self_deaf := none,
        self_mute := none, self_video := none, self_stream := none,
        suppress := none, request_to_speak_timestamp := none } =
      { id := "g1", unavailable := false, name := none, icon := none,
        ownerId := none, memberCount := none, splash := none, banner := none,
        description := none, channels := [], voiceStates := [] } :=
  ⟨c3_voice_leave_removes.1 _ _ ("u1") rfl (by decide) rfl rfl,
   c3_voice_leave_removes.2 _ _ (Or.inr (by decide))⟩

/-- C10: the VoiceState merge keeps the prior channel id and session id
whenever the payload field is null or absent, and no fold of merge calls
can turn a set channel id back into an unset one; disconnection is
representable only by removing the entry from the guild collection. -/
theorem c10_voicestate_patch_never_clears :
    (∀ (vs : VoiceState) (d : VSData),
      d.channel_id = none ∨ d.channel_id = some none →
      (VoiceState.patch vs d).channelId = vs.channelId) ∧
    (∀ (vs : VoiceState) (d : VSData),
      d.session_id = none ∨ d.session_id = some none →
      (VoiceState.patch vs d).sessionId = vs.sessionId) ∧
    (∀ (vs : VoiceState) (ds : List VSData),
      vs.channelId.isSome = true →
      ((ds.foldl VoiceState.patch vs).channelId).isSome = true) := by
  refine ⟨?_, ?_, ?_⟩
  · intro vs d h
    rcases h with h | h <;> simp [VoiceState.patch, nullMerge, h]
  · intro vs d h
    rcases h with h | h <;> simp [VoiceState.patch, nullMerge, h]
  · intro vs ds h
    induction ds generalizing vs with
    | nil => exact h
    | cons d ds ih =>
      rw [List.foldl_cons]
      exact ih (VoiceState.patch vs d) (nullMerge_isSome d.channel_id vs.channelId h)

theorem c10_witness :
    (VoiceState.patch
      { guildId := some ("g1"), userId := some ("u1"), sessionId := some ("s1"),
        channelId := some ("c1"), serverDeaf := false, serverMute := false,
        selfDeaf := false, selfMute := false, selfVideo := false,
        selfStream := false, suppress := false, requestToSpeakTimestamp := none }
      { guild_id := none, user_id := none, session_id := some none,
        channel_id := some none, deaf := some true, mute := none, self_deaf := none,
        self_mute := none, self_video := none, self_stream := none,
        suppress := none, request_to_speak_timestamp := none }).channelId =
      some ("c1") ∧
    (VoiceState.patch
      { guildId := some ("g1"), userId := some ("u1"), sessionId := some ("s1"),
        channelId := some ("c1"), serverDeaf := false, serverMute := false,
        selfDeaf := false, selfMute := false, selfVideo := false,
        selfStream := false, suppress := false, requestToSpeakTimestamp := none }
      { guild_id := none, user_id := none, session_id := some none,
        channel_id := some none, deaf := some true, mute := none, self_deaf := none,
        self_mute := none, self_video := none, self_stream := none,
        suppress := none, request_to_speak_timestamp := none }).sessionId =
      some ("s1") ∧
    ((([{ guild_id := none, user_id := none, session_id := none,
          channel_id := some none, deaf := none, mute := none, self_deaf := none,
          self_mute := none, self_video := none, self_stream := none,
          suppress := none, request_to_speak_timestamp := none }] :
        List VSData).foldl VoiceState.patch
      { guildId := some ("g1"), userId := some ("u1"), sessionId := some ("s1"),
        channelId := some ("c1"), serverDeaf := false, serverMute := false,
        selfDeaf := false, selfMute := false, selfVideo := false,
        selfStream := false, suppress := false,
        requestToSpeakTimestamp := none }).channelId).isSome = true :=
  ⟨c10_voicestate_patch_never_clears.1 _ _ (Or.inr rfl),
   c10_voicestate_patch_never_clears.2.1 _ _ (Or.inr rfl),
   c10_voicestate_patch_never_clears.2.2 _ _ rfl⟩

/-- C4: with a credential that is missing or does not carry the Bot
prefix, the factory produced by createVoiceDispatch leaves the adapters
table untouched whatever handler pair it is given, its send always
answers false without passing anything to the connection send primitive,
and its destroy is the identity on the table. -/
theorem c4_credential_gating :
    ∀ (tok : Option String) (gid : String) (m : AdapterMethods)
      (tbl tbl2 : List (String × AdapterMethods)) (wsOpen : Bool) (p : VoicePayload),
      (tok = none ∨ ∀ t, tok = some t → startsWithBot t = false) →
      ((VoiceManager.createVoiceDispatch tok gid).invoke m tbl).1 = tbl ∧
      ((VoiceManager.createVoiceDispatch tok gid).invoke m tbl).2.send wsOpen p =
        (false, none) ∧
      ((VoiceManager.createVoiceDispatch tok gid).invoke m tbl).2.destroy tbl2 = tbl2 := by
  intro tok gid m tbl tbl2 wsOpen p h
  have hg : isUserTokenGate tok = true := by
    rcases h with h | h
    · simp [isUserTokenGate, h]
    · cases tok with
      | none => simp [isUserTokenGate]
      | some t => simp [isUserTokenGate, h t rfl]
  simp [VoiceManager.createVoiceDispatch, hg]

theorem c4_witness :
    ((VoiceManager.createVoiceDispatch (some ("user.token.abc")) ("g1")).invoke
        { onStateId := 1, onServerId := 2 } []).1 = [] ∧
    ((VoiceManager.createVoiceDispatch (some ("user.token.abc")) ("g1")).invoke
        { onStateId := 1, onServerId := 2 } []).2.send true
      { guild_id := some ("g1"), channel_id := some ("c1"),
        self_mute := some false, self_deaf := some false } = (false, none) ∧
    ((VoiceManager.createVoiceDispatch (some ("user.token.abc")) ("g1")).invoke
        { onStateId := 1, onServerId := 2 } []).2.destroy
      [(("g2" : String), { onStateId := 3, onServerId := 4 })] =
      [(("g2" : String), { onStateId := 3, onServerId := 4 })] :=
  c4_credential_gating (some ("user.token.abc")) ("g1") { onStateId := 1, onServerId := 2 }
    [] [(("g2" : String), { onStateId := 3, onServerId := 4 })] true
    { guild_id := some ("g1"), channel_id := some ("c1"),
      self_mute := some false, self_deaf := some false }
    (Or.inr (fun t ht => by cases ht; decide))

/-- C5: on the privileged (bot credential) path, whenever the underlying
connection is open the adapter send leaves the given payload value intact,
transmits a copy of it with self_mute and self_deaf forced to null inside
the opcode-4 signaling envelope, and answers true; when the connection is
not open it answers false and transmits nothing, and being a total
function it raises no exception. -/
theorem c5_send_payload :
    ∀ (tok : Option String) (gid : String) (m : AdapterMethods)
      (tbl : List (String × AdapterMethods)) (p : VoicePayload),
      isUserTokenGate tok = false →
      ((VoiceManager.createVoiceDispatch tok gid).invoke m tbl).2.send true p =
        (true, some { op := 4, d := { p with self_mute := none, self_deaf := none } }) ∧
      ((VoiceManager.createVoiceDispatch tok gid).invoke m tbl).2.send false p =
        (false, none) := by
  intro tok gid m tbl p h
  simp [VoiceManager.createVoiceDispatch, h]

theorem c5_witness :
    ((VoiceManager.createVoiceDispatch (some ("Bot abc")) ("g1")).invoke
        { onStateId := 1, onServerId := 2 } []).2.send true
      { guild_id := some ("g1"), channel_id := some ("c1"),
        self_mute := some true, self_deaf := some true } =
      (true, some
        { op := 4,
          d := { guild_id := some ("g1"), channel_id := some ("c1"),
                 self_mute := none, self_deaf := none } }) ∧
    ((VoiceManager.createVoiceDispatch (some ("Bot abc")) ("g1")).invoke
        { onStateId := 1, onServerId := 2 } []).2.send false
      { guild_id := some ("g1"), channel_id := some ("c1"),
        self_mute := some true, self_deaf := some true } = (false, none) :=
  c5_send_payload (some ("Bot abc")) ("g1") { onStateId := 1, onServerId := 2 } []
    { guild_id := some ("g1"), channel_id := some ("c1"),
      self_mute := some true, self_deaf := some true } (by decide)

/-- C6: an inbound voice-state or voice-server dispatch without a guild id
invokes nothing; with a guild id it invokes exactly the callback of the
handler pair registered for that guild with the raw event data; when no
adapter is registered for the guild the event is dropped with nothing
invoked; and the invoked callback is never the one of a different
registered handler pair. -/
theorem c6_dispatch_routing :
    (∀ (a : List (String × AdapterMethods)) (d : VSData), d.guild_id = none →
      VoiceManager.onVoiceStateUpdate a d = none) ∧
    (∀ (a : List (String × AdapterMethods)) (d : VoiceServerData), d.guild_id = none →
      VoiceManager.onVoiceServerUpdate a d = none) ∧
    (∀ (a : List (String × AdapterMethods)) (d : VSData) (gid : String)
      (m : AdapterMethods), d.guild_id = some gid → gid ≠ "" →
      alistGet a gid = some m →
      VoiceManager.onVoiceStateUpdate a d = some (m.onStateId, d)) ∧
    (∀ (a : List (String × AdapterMethods)) (d : VoiceServerData) (gid : String)
      (m : AdapterMethods), d.guild_id = some gid → gid ≠ "" →
      alistGet a gid = some m →
      VoiceManager.onVoiceServerUpdate a d = some (m.onServerId, d)) ∧
    (∀ (a : List (String × AdapterMethods)) (d : VSData) (gid : String),
      d.guild_id = some gid → alistGet a gid = none →
      VoiceManager.onVoiceStateUpdate a d = none) ∧
    (∀ (a : List (String × AdapterMethods)) (d : VoiceServerData) (gid : String),
      d.guild_id = some gid → alistGet a gid = none →
      VoiceManager.onVoiceServerUpdate a d = none) ∧
    (∀ (a : List (String × AdapterMethods)) (d : VSData) (gid : String)
      (m mOther : AdapterMethods), d.guild_id = some gid → gid ≠ "" →
      alistGet a gid = some m → mOther.onStateId ≠ m.onStateId →
      VoiceManager.onVoiceStateUpdate a d ≠ some (mOther.onStateId, d)) := by
  refine ⟨?_, ?_, ?_, ?_, ?_, ?_, ?_⟩
  · intro a d h; simp [VoiceManager.onVoiceStateUpdate, h]
  · intro a d h; simp [VoiceManager.onVoiceServerUpdate, h]
  · intro a d gid m hg he hm
    simp [VoiceManager.onVoiceStateUpdate, hg, he, hm]
  · intro a d gid m hg he hm
    simp [VoiceManager.onVoiceServerUpdate, hg, he, hm]
  · intro a d gid hg hm
    by_cases he : gid = "" <;>
      simp [VoiceManager.onVoiceStateUpdate, hg, he, hm]
  · intro a d gid hg hm
    by_cases he : gid = "" <;>
      simp [VoiceManager.onVoiceServerUpdate, hg, he, hm]
  · intro a d gid m mOther hg he hm hne
    simp [VoiceManager.onVoiceStateUpdate, hg, he, hm]
    intro hcontra
    exact hne hcontra.symm

theorem c6_witness :
    VoiceManager.onVoiceStateUpdate
      [(("A" : String), { onStateId := 1, onServerId := 2 }),
       (("B" : String), { onStateId := 3, onServerId := 4 })]
      { guild_id := some ("A"), user_id := some ("u1"), session_id := none,
        channel_id := none, deaf := none, mute := none, self_deaf := none,
        self_mute := none, self_video := none, self_stream := none,
        suppress := none, request_to_speak_timestamp := none } =
      some (1,
        { guild_id := some ("A"), user_id := some ("u1"), session_id := none,
          channel_id := none, deaf := none, mute := none, self_deaf := none,
          self_mute := none, self_video := none, self_stream := none,
          suppress := none, request_to_speak_timestamp := none }) ∧
    VoiceManager.onVoiceServerUpdate
      [(("A" : String), { onStateId := 1, onServerId := 2 })]
      { guild_id := some ("C"), token := some ("tk"), endpoint := none } = none ∧
    VoiceManager.onVoiceStateUpdate
      [(("A" : String), { onStateId := 1, onServerId := 2 }),
       (("B" : String), { onStateId := 3, onServerId := 4 })]
      { guild_id := some ("A"), user_id := some ("u1"), session_id := none,
        channel_id := none, deaf := none, mute := none, self_deaf := none,
        self_mute := none, self_video := none, self_stream := none,
        suppress := none, request_to_speak_timestamp := none } ≠
      some (3,
        { guild_id := some ("A"), user_id := some ("u1"), session_id := none,
          channel_id := none, deaf := none, mute := none, self_deaf := none,
          self_mute := none, self_video := none, self_stream := none,
          suppress := none, request_to_speak_timestamp := none }) :=
  ⟨c6_dispatch_routing.2.2.1 _ _ ("A") { onStateId := 1, onServerId := 2 }
    rfl (by decide) rfl,
   c6_dispatch_routing.2.2.2.2.2.1 _ _ ("C") rfl rfl,
   c6_dispatch_routing.2.2.2.2.2.2 _ _ ("A")
    { onStateId := 1, onServerId := 2 } { onStateId := 3, onServerId := 4 }
    rfl (by decide) rfl (by decide)⟩

/-- C9: for an entity whose id parses as a decimal snowflake the derived
creation timestamp is exactly the snowflake shifted right 22 bits plus
the fixed epoch offset of 1420070400000 milliseconds, both through the
User getter and through the Util helper, in exact Nat arithmetic. -/
theorem c9_snowflake_timestamp :
    ∀ (u : User) (n : Nat), parseBigIntDec u.id = some n →
      User.createdTimestamp u = some (n / 2 ^ 22 + 1420070400000) ∧
      Util.getTimestampFromSnowflake u.id = n / 2 ^ 22 + 1420070400000 := by
  intro u n h
  have hs : n >>> 22 = n / 2 ^ 22 := Nat.shiftRight_eq_div_pow n 22
  constructor
  · simp [User.createdTimestamp, h, hs, DISCORD_EPOCH]
  · simp [Util.getTimestampFromSnowflake, h, hs, DISCORD_EPOCH]

theorem c9_witness :
    parseBigIntDec ("175928847299117063") = some 175928847299117063 ∧
    User.createdTimestamp
      { id := "175928847299117063", username := none, discriminator := none,
        avatar := none, bot := none, system := none } =
      some (175928847299117063 / 2 ^ 22 + 1420070400000) ∧
    Util.getTimestampFromSnowflake ("175928847299117063") =
      175928847299117063 / 2 ^ 22 + 1420070400000 :=
  ⟨by decide,
   c9_snowflake_timestamp
    { id := "175928847299117063", username := none, discriminator := none,
      avatar := none, bot := none, system := none }
    175928847299117063 (by decide)⟩

/-- C7 counterexample: the guild cache. A 404-equivalent rejection of the
remote read is propagated unchanged by GuildManager.fetch, instead of
evicting the entry and answering null as the claim states for every
entity cache. -/
theorem c7_counterexample :
    GuildManager.fetch
      [(("1" : String),
        Guild.new
          { id := "1", unavailable := none, name := none, icon := none,
            owner_id := none, member_count := none, splash := none,
            banner := none, description := none, channels := none,
            threads := none, voice_states := none })]
      ("1") true true (RemoteOutcome.failure (some 404)) =
      Except.error (some 404) ∧
    (Except.error (some 404) :
        Except (Option Nat) (Option Guild × List (String × Guild))) ≠
      Except.ok (none,
        alistErase
          [(("1" : String),
            Guild.new
              { id := "1", unavailable := none, name := none, icon := none,
                owner_id := none, member_count := none, splash := none,
                banner := none, description := none, channels := none,
                threads := none, voice_states := none })] ("1")) :=
  ⟨rfl, fun h => Except.noConfusion h⟩

/-- C7 as amended: the user cache fetch recovers a 404-equivalent
rejection locally, evicting the id from its table and answering null,
and propagates every other rejection unchanged with the cache untouched;
the guild cache fetch instead propagates every rejection unchanged, the
404-equivalent included, and never evicts. -/
theorem c7_fetch_404_semantics :
    (∀ (s : UserStore) (id : String),
      UserManager.fetch s id true true (RemoteOutcome.failure (some 404)) =
        Except.ok (none, { s with table := alistErase s.table id })) ∧
    (∀ (s : UserStore) (id : String) (st : Option Nat), st ≠ some 404 →
      UserManager.fetch s id true true (RemoteOutcome.failure st) =
        Except.error st) ∧
    (∀ (s : List (String × Guild)) (id : String) (c : Bool) (st : Option Nat),
      GuildManager.fetch s id c true (RemoteOutcome.failure st) =
        Except.error st) := by
  refine ⟨?_, ?_, ?_⟩
  · intro s id
    simp [UserManager.fetch]
  · intro s id st h
    simp [UserManager.fetch, h]
  · intro s id c st
    simp [GuildManager.fetch]

theorem c7_witness :
    UserManager.fetch UserStore.empty ("9") true true
      (RemoteOutcome.failure (some 500)) = Except.error (some 500) ∧
    GuildManager.fetch ([] : List (String × Guild)) ("9") true true
      (RemoteOutcome.failure (some 500)) = Except.error (some 500) :=
  ⟨c7_fetch_404_semantics.2.1 UserStore.empty ("9") (some 500) (by decide),
   c7_fetch_404_semantics.2.2 ([] : List (String × Guild)) ("9") true (some 500)⟩

/-- The first payload of the C8 scenario. -/
def c8dataA : UserData :=
  { id := "1", username := some ("a"), discriminator := some ("1234"),
    avatar := none, bot := none, system := none }

/-- The second payload of the C8 scenario: only the discriminator. -/
def c8dataB : UserData :=
  { id := "1", username := none, discriminator := some ("0"),
    avatar := none, bot := none, system := none }

/-- The user cache after the first C8 upsert. -/
def c8store1 : UserStore := (UserStore.upsert UserStore.empty c8dataA).2

/-- The user cache after the second C8 upsert. -/
def c8store2 : UserStore := (UserStore.upsert c8store1 c8dataB).2

/-- C8 counterexample: a user whose discriminator is present but the empty
string. The universal rule of the claim demands the tag
username#discriminator because the discriminator differs from the string
0, yet the getter answers the bare username for every falsy
discriminator. -/
theorem c8_counterexample :
    (User.new
      { id := "1", username := some ("a"), discriminator := some (""),
        avatar := none, bot := none, system := none }).username = some ("a") ∧
    (User.new
      { id := "1", username := some ("a"), discriminator := some (""),
        avatar := none, bot := none, system := none }).discriminator = some ("") ∧
    some ("") ≠ some ("0") ∧
    User.tag
      (User.new
        { id := "1", username := some ("a"), discriminator := some (""),
          avatar := none, bot := none, system := none }) ≠
      some ("a" ++ "#" ++ "") := by
  decide

/-- C8 as amended: the example scenario holds verbatim, and in general the
tag is username#discriminator when both are set and the discriminator is
neither the string 0 nor empty; it is the bare username when the username
is set and the discriminator is the string 0, empty, or unset; and it is
null when the username is unset. -/
theorem c8_tag_rule :
    Option.map User.tag (getAt c8store1.heap 0) = some (some ("a#1234")) ∧
    Option.map User.tag (getAt c8store2.heap 0) = some (some ("a")) ∧
    Option.map User.username (getAt c8store2.heap 0) = some (some ("a")) ∧
    (∀ (u : User) (name d : String), u.username = some name →
      u.discriminator = some d → d ≠ "0" → d ≠ "" →
      User.tag u = some (name ++ "#" ++ d)) ∧
    (∀ (u : User) (name : String), u.username = some name →
      (u.discriminator = some ("0") ∨ u.discriminator = some ("") ∨
        u.discriminator = none) →
      User.tag u = some name) ∧
    (∀ (u : User), u.username = none → User.tag u = none) := by
  refine ⟨by decide, by decide, by decide, ?_, ?_, ?_⟩
  · intro u name d hn hd h0 he
    simp [User.tag, hn, hd, h0, he]
  · intro u name hn hd
    rcases hd with hd | hd | hd <;> simp [User.tag, hn, hd]
  · intro u hn
    simp [User.tag, hn]

theorem c8_tag_rule_witness :
    User.tag
      { id := "1", username := some ("a"), discriminator := some ("1234"),
        avatar := none, bot := none, system := none } =
      some ("a" ++ "#" ++ "1234") ∧
    User.tag
      { id := "1", username := some ("a"), discriminator := some ("0"),
        avatar := none, bot := none, system := none } = some ("a") ∧
    User.tag
      { id := "1", username := none, discriminator := some ("5"),
        avatar := none, bot := none, system := none } = none :=
  ⟨c8_tag_rule.2.2.2.1
      { id := "1", username := some ("a"), discriminator := some ("1234"),
        avatar := none, bot := none, system := none }
      ("a") ("1234") rfl rfl (by decide) (by decide),
   c8_tag_rule.2.2.2.2.1
      { id := "1", username := some ("a"), discriminator := some ("0"),
        avatar := none, bot := none, system := none }
      ("a") rfl (Or.inl rfl),
   c8_tag_rule.2.2.2.2.2
      { id := "1", username := none, discriminator := some ("5"),
        avatar := none, bot := none, system := none } rfl⟩

/-- The field-retention contract of two successive patches: every field
present in the second payload holds the second payload value, and every
field absent from the second but present in the first retains the first
payload value. -/
def PatchPair (u : User) (d1 d2 : UserData) : Prop :=
  (∀ v, d2.username = some v → u.username = some v) ∧
  (d2.username = none → ∀ v, d1.username = some v → u.username = some v) ∧
  (∀ v, d2.discriminator = some v → u.discriminator = some v) ∧
  (d2.discriminator = none → ∀ v, d1.discriminator = some v →
    u.discriminator = some v) ∧
  (∀ v, d2.avatar = some v → u.avatar = some v) ∧
  (d2.avatar = none → ∀ v, d1.avatar = some v → u.avatar = some v) ∧
  (∀ v, d2.bot = some v → u.bot = some v) ∧
  (d2.bot = none → ∀ v, d1.bot = some v → u.bot = some v) ∧
  (∀ v, d2.system = some v → u.system = some v) ∧
  (d2.system = none → ∀ v, d1.system = some v → u.system = some v)

/-- Override and retention through two stacked guarded merges. -/
theorem mergeOpt_pair {α : Type u} (x1 x2 old : Option α) :
    (∀ v, x2 = some v → mergeOpt x2 (mergeOpt x1 old) = some v) ∧
    (x2 = none → ∀ v, x1 = some v → mergeOpt x2 (mergeOpt x1 old) = some v) := by
  constructor
  · intro v h; simp [mergeOpt, h]
  · intro h2 v h1; simp [mergeOpt, h2, h1]

/-- Two successive patches over any base satisfy the retention contract. -/
theorem patchPair_patch_patch (u0 : User) (d1 d2 : UserData) :
    PatchPair (User.patch (User.patch u0 d1) d2) d1 d2 :=
  ⟨(mergeOpt_pair d1.username d2.username u0.username).1,
   (mergeOpt_pair d1.username d2.username u0.username).2,
   (mergeOpt_pair d1.discriminator d2.discriminator u0.discriminator).1,
   (mergeOpt_pair d1.discriminator d2.discriminator u0.discriminator).2,
   (mergeOpt_pair d1.avatar d2.avatar u0.avatar).1,
   (mergeOpt_pair d1.avatar d2.avatar u0.avatar).2,
   (mergeOpt_pair d1.bot d2.bot u0.bot).1,
   (mergeOpt_pair d1.bot d2.bot u0.bot).2,
   (mergeOpt_pair d1.system d2.system u0.system).1,
   (mergeOpt_pair d1.system d2.system u0.system).2⟩

/-- C1: on a well formed user cache, two successive upserts whose payloads
carry the same id answer the same instance (the same heap index), and the
instance then holds every field of the second payload and retains from
the first payload every field the second omits. -/
theorem c1_upsert_identity_and_merge :
    ∀ (s : UserStore) (d1 d2 : UserData) (i : String),
      UserStoreWF s → d1.id = i → d2.id = i →
      (UserStore.upsert s d1).1 =
        (UserStore.upsert (UserStore.upsert s d1).2 d2).1 ∧
      ∃ u, getAt (UserStore.upsert (UserStore.upsert s d1).2 d2).2.heap
            (UserStore.upsert s d1).1 = some u ∧ PatchPair u d1 d2 := by
  intro s d1 d2 i hwf h1 h2
  cases hl : alistGet s.table i with
  | none =>
    have e1 : UserStore.upsert s d1 =
        (s.heap.length,
          { heap := s.heap ++ [User.new d1],
            table := s.table ++ [(i, s.heap.length)] }) := by
      simp [UserStore.upsert, h1, hl]
    have hlook : alistGet (s.table ++ [(i, s.heap.length)]) i =
        some s.heap.length :=
      alistGet_append_single s.table i s.heap.length hl
    have hget : getAt (s.heap ++ [User.new d1]) s.heap.length =
        some (User.new d1) :=
      getAt_append_length s.heap (User.new d1)
    have e2 : UserStore.upsert (UserStore.upsert s d1).2 d2 =
        (s.heap.length,
          { heap := setAt (s.heap ++ [User.new d1]) s.heap.length
              (User.patch (User.new d1) d2),
            table := s.table ++ [(i, s.heap.length)] }) := by
      rw [e1]
      simp [UserStore.upsert, h2, hlook, hget]
    constructor
    · rw [e2, e1]
    · refine ⟨User.patch (User.new d1) d2, ?_, ?_⟩
      · rw [e2, e1]
        exact getAt_setAt_self _ _ _ (by simp)
      · exact patchPair_patch_patch _ d1 d2
  | some r =>
    have hr : r < s.heap.length := hwf i r hl
    have hsome : (getAt s.heap r).isSome = true :=
      (getAt_isSome_iff s.heap r).mpr hr
    cases hg0 : getAt s.heap r with
    | none => rw [hg0] at hsome; simp at hsome
    | some u0 =>
      have e1 : UserStore.upsert s d1 =
          (r, { s with heap := setAt s.heap r (User.patch u0 d1) }) := by
        simp [UserStore.upsert, h1, hl, hg0]
      have hget1 : getAt (setAt s.heap r (User.patch u0 d1)) r =
          some (User.patch u0 d1) := getAt_setAt_self s.heap r _ hr
      have e2 : UserStore.upsert (UserStore.upsert s d1).2 d2 =
          (r,
            { s with
              heap := setAt (setAt s.heap r (User.patch u0 d1)) r
                (User.patch (User.patch u0 d1) d2) }) := by
        rw [e1]
        simp [UserStore.upsert, h2, hl, hget1]
      constructor
      · rw [e2, e1]
      · refine ⟨User.patch (User.patch u0 d1) d2, ?_,
          patchPair_patch_patch u0 d1 d2⟩
        rw [e2, e1]
        apply getAt_setAt_self
        rw [length_setAt]
        exact hr

/-- The first payload of the C1 witness. -/
def c1dataA : UserData :=
  { id := "7", username := some ("alice"), discriminator := some ("1234"),
    avatar := some (some ("hashA")), bot := none, system := some true }

/-- The second, partial payload of the C1 witness. -/
def c1dataB : UserData :=
  { id := "7", username := none, discriminator := some ("0"),
    avatar := none, bot := some false, system := none }

theorem c1_witness :
    (UserStore.upsert UserStore.empty c1dataA).1 =
      (UserStore.upsert (UserStore.upsert UserStore.empty c1dataA).2 c1dataB).1 ∧
    ∃ u, getAt
          (UserStore.upsert (UserStore.upsert UserStore.empty c1dataA).2 c1dataB).2.heap
          (UserStore.upsert UserStore.empty c1dataA).1 = some u ∧
        PatchPair u c1dataA c1dataB :=
  c1_upsert_identity_and_merge UserStore.empty c1dataA c1dataB ("7")
    (fun k r h => by simp [UserStore.empty, alistGet] at h) rfl rfl
